import Mathlib

/-!
Verification of the form-answer resolution engine of the linkedin-easy-apply
repository.  The Python modules `experience_map.py`, `work_authorization.py`,
`gemini_cv.py`, `cv_reader.py`, the fill-value computation of `applier.py`
and the daily-limit stop path of `main.py` are shallowly embedded as
executable Lean functions; I/O boundaries (PDF extraction, the LLM
completions, the browser driver) are passed in as explicit parameters.
-/

namespace EasyApply

/-! ## Python string primitives

`pyLower` models `str.lower` on ASCII letters and on the Latin-1 uppercase
range (covering the French letters appearing in the source's patterns).
`isPySpace` models the whitespace class used by `str.strip` and `\s`
(ASCII whitespace; exotic Unicode spaces are not modelled). -/

def pyLower (c : Char) : Char :=
  if 'A' ≤ c ∧ c ≤ 'Z' then Char.ofNat (c.toNat + 32)
  else if 0xC0 ≤ c.toNat ∧ c.toNat ≤ 0xDE ∧ c.toNat ≠ 0xD7 then Char.ofNat (c.toNat + 32)
  else c

def isPySpace (c : Char) : Bool :=
  c = ' ' || c = '\t' || c = '\n' || c = '\r' || c.toNat = 11 || c.toNat = 12

/-- `str.strip()` on a character list. -/
def pyStrip (cs : List Char) : List Char :=
  ((cs.dropWhile isPySpace).reverse.dropWhile isPySpace).reverse

/-- `str.lower()` on a string. -/
def lowerS (s : String) : String := String.mk (s.toList.map pyLower)

/-- `str.strip()` on a string. -/
def stripS (s : String) : String := String.mk (pyStrip s.toList)

/-- Whitespace collapsing: state `prev` records whether the last emitted
character was a (collapsed) space. -/
def collapseGo : Bool → List Char → List Char
  | _, [] => []
  | prev, c :: cs =>
    if isPySpace c then
      if prev then collapseGo true cs else ' ' :: collapseGo true cs
    else c :: collapseGo false cs

/-- `re.sub(r"\s+", " ", label.lower().strip())` — the `_normalize_label` /
`_normalize` helper of `experience_map.py` and `work_authorization.py`,
returned as a character list. -/
def normalizeLabel (s : String) : List Char :=
  collapseGo false (pyStrip (s.toList.map pyLower))

/-- All suffixes of a list, longest first (including the empty suffix). -/
def suffixes : List Char → List (List Char)
  | [] => [[]]
  | c :: cs => (c :: cs) :: suffixes cs

/-- Python's substring test `needle in hay`. -/
def isSubstr (needle hay : List Char) : Bool :=
  (suffixes hay).any (fun s => needle.isPrefixOf s)

/-- `needle in hay` on strings (`needle` and `hay` in that argument order). -/
def containsSub (hay needle : String) : Bool := isSubstr needle.toList hay.toList

/-! ## A small regex engine

The source uses `re.search` with a fixed, finite set of patterns built from
literals, `.*`, alternations of literals `(a|b)` and an optional literal
group `(a)?`.  `Rx` is that fragment; `rxSearch` decides whether a pattern
sequence matches anywhere in the text (the only use the source makes of
`re.search` is its truthiness). -/

inductive Rx where
  | lit (s : String)
  | anyStar
  | alts (ss : List String)
  | opt (ss : List String)
deriving Repr

/-- Suffixes reachable from the head by consuming non-newline characters
(the characters `.` can match), longest first. -/
def suffNoNL : List Char → List (List Char)
  | [] => [[]]
  | c :: cs => (c :: cs) :: (if c = '\n' then [] else suffNoNL cs)

/-- Does the pattern sequence match a prefix of `cs` (with the rest of the
text ignored)? `re.search` has no anchor here, so matching any prefix of any
start position suffices. -/
def matchesFrom : List Rx → List Char → Bool
  | [], _ => true
  | Rx.lit s :: ps, cs =>
    s.toList.isPrefixOf cs && matchesFrom ps (cs.drop s.toList.length)
  | Rx.anyStar :: ps, cs => (suffNoNL cs).any (fun t => matchesFrom ps t)
  | Rx.alts ss :: ps, cs =>
    ss.any (fun s => s.toList.isPrefixOf cs && matchesFrom ps (cs.drop s.toList.length))
  | Rx.opt ss :: ps, cs =>
    matchesFrom ps cs ||
      ss.any (fun s => s.toList.isPrefixOf cs && matchesFrom ps (cs.drop s.toList.length))

/-- `re.search(pattern, text) is not None`. -/
def rxSearch (p : List Rx) (cs : List Char) : Bool :=
  (suffixes cs).any (fun s => matchesFrom p s)

/-! ## experience_map.py -/

def YEARS_JAVA_CORE : Nat := 4
def YEARS_PRIMARY : Nat := 3
def YEARS_OTHER : Nat := 2
def TOTAL_YEARS_DEFAULT : Nat := 3

def TECH_4_YEARS : List String := ["java", "core java", "java se", "jvm"]

def TECH_3_YEARS : List String :=
  ["spring", "spring boot", "springboot", "postgres", "postgresql", "mysql",
   "websocket", "web socket", "webservices", "web services", "rest api",
   "restapis", "restful", "react", "angular", "mockito", "unit test",
   "unittesting", "junit", "agile", "scrum", "agile/scrum", "microservices",
   "docker", "ci/cd", "git", "nestjs", "typescript", "ejb",
   "enterprise javabeans", "data structures", "keycloak", "rbac", "graphql",
   "graph ql", "ruby", "banking", "angular ui", "ui integration"]

def YES_NO_EXPERIENCE_PATTERNS : List (List Rx) :=
  [[.lit "do you have ", .anyStar, .lit " experience"],
   [.lit "do you have experience"],
   [.lit "do you have ", .alts ["at least", "an understanding of"]],
   [.lit "have you ", .alts ["worked", "used", "experience"]],
   [.lit "are you ", .alts ["experienced", "familiar"]],
   [.lit "experience with ", .anyStar, .lit "?"],
   [.lit "experience ", .alts ["programming", "using", "with"]],
   [.lit "avez-vous ", .anyStar, .lit " expérience"],
   [.lit "oui ou non"],
   [.lit "yes or no"],
   [.lit "yes/no"]]

/-- `get_years_for_question` of `experience_map.py`.  The Python loops
`for tech in TECH_?_YEARS: if tech in text: return k` return a constant, so
they are rendered with `List.any`. -/
def get_years_for_question (question_label : String) : Option Nat :=
  if question_label = "" then none
  else
    let text := normalizeLabel question_label
    if !(["year", "years", "année", "expérience", "experience"].any
          (fun k => isSubstr k.toList text)) then none
    else if isSubstr "total".toList text &&
        (isSubstr "year".toList text || isSubstr "experience".toList text) then
      some TOTAL_YEARS_DEFAULT
    else if TECH_4_YEARS.any (fun t => isSubstr t.toList text) then
      some YEARS_JAVA_CORE
    else if TECH_3_YEARS.any (fun t => isSubstr t.toList text) then
      some YEARS_PRIMARY
    else if isSubstr "year".toList text || isSubstr "experience".toList text then
      some YEARS_OTHER
    else none

/-- `is_yes_no_experience_question` of `experience_map.py`. -/
def is_yes_no_experience_question (question_label : String) : Bool :=
  if question_label = "" then false
  else
    let text := normalizeLabel question_label
    if isSubstr "how many".toList text && isSubstr "years".toList text then false
    else YES_NO_EXPERIENCE_PATTERNS.any (fun p => rxSearch p text)

/-- `get_yes_no_for_experience` of `experience_map.py`. -/
def get_yes_no_for_experience (question_label : String) : Option String :=
  if !is_yes_no_experience_question question_label then none
  else
    let years := (get_years_for_question question_label).getD YEARS_OTHER
    some (if years > 0 then "Yes" else "No")

/-! ## config.py

The configuration values the resolver reads (module-level globals loaded from
the environment).  `cfgDefault` carries the default values of `config.py`.
Note `config.py` applies `.strip()` at load time to some values (names,
gender, company, title, certifications) but not to others (city, notice
period, authorization answers). -/

structure Config where
  WORK_AUTHORIZATION_ANSWER : String
  WORK_NEED_SPONSORSHIP_ANSWER : String
  WORK_AUTHORIZATION_COUNTRY : String
  DEFAULT_LOCATION_CITY : String
  EASY_APPLY_FIRST_NAME : String
  EASY_APPLY_LAST_NAME : String
  EASY_APPLY_HYBRID_ANSWER : String
  NOTICE_PERIOD_DEFAULT : String
  EASY_APPLY_CURRENT_COMPANY : String
  EASY_APPLY_CURRENT_TITLE : String
  EASY_APPLY_GENDER : String
  EASY_APPLY_CERTIFICATIONS : String
  USE_GEMINI_FOR_CV : Bool
deriving Repr

def cfgDefault : Config :=
  { WORK_AUTHORIZATION_ANSWER := "No"
    WORK_NEED_SPONSORSHIP_ANSWER := "Yes"
    WORK_AUTHORIZATION_COUNTRY := "Canada"
    DEFAULT_LOCATION_CITY := "Casablanca"
    EASY_APPLY_FIRST_NAME := ""
    EASY_APPLY_LAST_NAME := ""
    EASY_APPLY_HYBRID_ANSWER := "Yes"
    NOTICE_PERIOD_DEFAULT := "3 months"
    EASY_APPLY_CURRENT_COMPANY := ""
    EASY_APPLY_CURRENT_TITLE := ""
    EASY_APPLY_GENDER := ""
    EASY_APPLY_CERTIFICATIONS := ""
    USE_GEMINI_FOR_CV := true }

/-! ## work_authorization.py -/

def WORK_AUTH_PATTERNS : List (List Rx) :=
  [[.lit "citizenship"],
   [.lit "citizen of"],
   [.lit "authorized to work"],
   [.lit "legally ", .alts ["eligible", "authorized"], .lit " to work"],
   [.lit "right to work"],
   [.lit "resid", .alts ["e", "ency"], .lit " in"],
   [.lit "currently ", .alts ["live", "reside"]],
   [.lit "work ", .alts ["permit", "authorization", "visa"]],
   [.lit "citoyenneté"],
   [.lit "autorisé à travailler"],
   [.lit "résidence"],
   [.lit "work in ", .alts ["canada", "usa", "united states", "uk", "france"]]]

def SPONSORSHIP_QUESTION_PATTERNS : List (List Rx) :=
  [[.lit "require", .anyStar, .lit "sponsorship"],
   [.lit "need", .anyStar, .lit "sponsorship"],
   [.lit "do you ", .alts ["need", "require"], .lit " sponsorship"],
   [.lit "sponsorship ", .alts ["required", "needed"]],
   [.lit "sponsorship", .anyStar, .opt ["employment"], .anyStar, .lit "visa"],
   [.lit "visa", .anyStar, .lit "sponsorship"],
   [.lit "will you ", .anyStar, .lit " require sponsorship"],
   [.lit "sponsorship for employment visa"],
   [.lit "parrainage", .anyStar, .alts ["immigration", "autorisation", "travail"]],
   [.lit "aur", .alts ["ez", "ez-vous"], .anyStar, .lit "parrainage"]]

def COUNTRIES : List String :=
  ["canada", "usa", "united states", "uk", "france", "germany", "maroc", "morocco"]

/-- `is_work_authorization_question` of `work_authorization.py` (the
`country_hint` parameter defaults to `""` at every call site in the repo). -/
def is_work_authorization_question (cfg : Config) (question_label : String)
    (country_hint : String := "") : Bool :=
  if question_label = "" then false
  else
    let text := normalizeLabel question_label
    let country :=
      lowerS (if country_hint = "" then cfg.WORK_AUTHORIZATION_COUNTRY else country_hint)
    if WORK_AUTH_PATTERNS.any (fun p => rxSearch p text) then true
    else if COUNTRIES.any (fun c => isSubstr c.toList text &&
        (isSubstr "work".toList text || isSubstr "authorized".toList text ||
          isSubstr "citizen".toList text || isSubstr "resid".toList text)) then true
    else if isSubstr country.toList text &&
        (isSubstr "work".toList text || isSubstr "authorized".toList text ||
          isSubstr "citizen".toList text || isSubstr "resid".toList text) then true
    else false

/-- `get_work_authorization_answer` of `work_authorization.py`. -/
def get_work_authorization_answer (cfg : Config) (question_label : String) :
    Option String :=
  if question_label = "" then none
  else
    let text := normalizeLabel question_label
    if SPONSORSHIP_QUESTION_PATTERNS.any (fun p => rxSearch p text) then
      some cfg.WORK_NEED_SPONSORSHIP_ANSWER
    else if isSubstr "sponsorship".toList text &&
        (isSubstr "require".toList text || isSubstr "need".toList text ||
          isSubstr "future".toList text) then
      some cfg.WORK_NEED_SPONSORSHIP_ANSWER
    else if isSubstr "visa".toList text && isSubstr "sponsorship".toList text then
      some cfg.WORK_NEED_SPONSORSHIP_ANSWER
    else if isSubstr "parrainage".toList text &&
        (isSubstr "immigration".toList text || isSubstr "autorisation".toList text ||
          isSubstr "travail".toList text || isSubstr "aurez".toList text) then
      some cfg.WORK_NEED_SPONSORSHIP_ANSWER
    else if !is_work_authorization_question cfg question_label then none
    else some cfg.WORK_AUTHORIZATION_ANSWER

/-- The sponsorship side of `get_work_authorization_answer`: the disjunction
of the four checks the function tries (in source order) before falling back
to the authorization classifier.  Matching any of them yields the
needs-sponsorship answer. -/
def sponsorshipDetected (text : List Char) : Bool :=
  SPONSORSHIP_QUESTION_PATTERNS.any (fun p => rxSearch p text) ||
  (isSubstr "sponsorship".toList text &&
    (isSubstr "require".toList text || isSubstr "need".toList text ||
      isSubstr "future".toList text)) ||
  (isSubstr "visa".toList text && isSubstr "sponsorship".toList text) ||
  (isSubstr "parrainage".toList text &&
    (isSubstr "immigration".toList text || isSubstr "autorisation".toList text ||
      isSubstr "travail".toList text || isSubstr "aurez".toList text))

/-! ## gemini_cv.py

The API calls are I/O.  Each exported function obtains a raw completion
string `text` from the provider chain (Gemini, then Groq); the `Oracle`
structure carries that raw completion per function, with `""` standing for
"both providers yielded nothing" (Python merges `None` and `""` through
truthiness at every use).  The post-processing applied to `text` is embedded
from the source. -/

structure Oracle where
  salaryText : String
  optionsText : String
  anyAnswerText : String
  yearsText : String
  cvAnswerText : String
deriving Repr

/-- The oracle in which both providers fail for every call. -/
def oraNone : Oracle :=
  { salaryText := "", optionsText := "", anyAnswerText := "", yearsText := ""
    cvAnswerText := "" }

/-- `str.strip('"\'')`: strip double/single quotes from both ends. -/
def stripQuotes (cs : List Char) : List Char :=
  ((cs.dropWhile (fun c => c = '"' || c = '\'')).reverse.dropWhile
    (fun c => c = '"' || c = '\'')).reverse

/-- `str.isdigit()` (ASCII digits; the source only applies it to
already-filtered ASCII content). -/
def pyIsDigit (cs : List Char) : Bool := !cs.isEmpty && cs.all Char.isDigit

/-- Decimal value of a digit list (how Python's `int` reads a digit string). -/
def digitsToNat (cs : List Char) : Nat :=
  cs.foldl (fun a c => a * 10 + (c.toNat - '0'.toNat)) 0

/-- Python `int(s)` as a partial function: strip whitespace, optional sign,
one or more digits; anything else raises `ValueError`, rendered as `none`.
(Underscore digit separators, accepted by Python, are not modelled; the
callers catch the error and substitute a constant either way.) -/
def pyIntOpt (s : String) : Option Int :=
  let cs := pyStrip s.toList
  match cs with
  | '-' :: t => if t ≠ [] && t.all Char.isDigit then some (-(digitsToNat t : Int)) else none
  | '+' :: t => if t ≠ [] && t.all Char.isDigit then some (digitsToNat t : Int) else none
  | t => if t ≠ [] && t.all Char.isDigit then some (digitsToNat t : Int) else none

/-- `get_salary_expectation_gemini` of `gemini_cv.py` (the `region`/`role`
arguments only shape the prompt).  Every path returns a string. -/
def get_salary_expectation_gemini (ora : Oracle) : String :=
  if ora.salaryText ≠ "" then
    let num := (pyStrip ora.salaryText.toList).filter (fun c => c.isDigit || c = '.')
    if num ≠ [] then
      if num.contains '.' && pyIsDigit (num.takeWhile (fun c => c ≠ '.')) then
        String.mk (num.takeWhile (fun c => c ≠ '.'))
      else if pyIsDigit num then String.mk num
      else "95000"
    else "95000"
  else "95000"

/-- `get_answer_from_options` of `gemini_cv.py`. -/
def get_answer_from_options (ora : Oracle) (question : String)
    (options : List String) : Option String :=
  match (options.map (fun o => String.mk (pyStrip o.toList))).filter
      (fun o => o ≠ "") with
  | [] => none
  | o0 :: rest =>
    if ora.optionsText = "" then some o0
    else
      let chosen := stripQuotes (pyStrip ora.optionsText.toList)
      match (o0 :: rest).find? (fun o =>
          (o.toList.map pyLower) == (chosen.map pyLower) ||
          isSubstr (chosen.map pyLower) (o.toList.map pyLower) ||
          isSubstr (o.toList.map pyLower) (chosen.map pyLower)) with
      | some o => some o
      | none => some o0

/-- `get_answer_any_question_gemini` of `gemini_cv.py`. -/
def get_answer_any_question_gemini (ora : Oracle) (question : String)
    (maxLength : Nat := 100) : Option String :=
  if pyStrip question.toList = [] then none
  else if ora.anyAnswerText ≠ "" then
    let out := (stripQuotes (pyStrip ora.anyAnswerText.toList)).take maxLength
    if out ≠ [] then some (String.mk out) else none
  else none

/-- `get_years_of_experience_from_cv` of `gemini_cv.py`. -/
def get_years_of_experience_from_cv (ora : Oracle) (question cv_text : String) :
    Option String :=
  if question = "" || pyStrip cv_text.toList = [] ||
      (pyStrip cv_text.toList).length < 30 then none
  else if ora.yearsText ≠ "" then
    let num := (pyStrip ora.yearsText.toList).filter Char.isDigit
    if num = [] then none
    else
      let n := if num.length ≥ 2 then digitsToNat (num.take 2) else digitsToNat num
      some (toString (min 99 (max 0 n)))
  else none

/-- `get_answer_from_cv_with_gemini` of `gemini_cv.py`. -/
def get_answer_from_cv_with_gemini (cfg : Config) (ora : Oracle)
    (question cv_text : String) (maxLength : Nat := 100) : Option String :=
  if !cfg.USE_GEMINI_FOR_CV || cv_text = "" || question = "" then none
  else if pyStrip question.toList = [] || (pyStrip cv_text.toList).length < 50 then none
  else if ora.cvAnswerText ≠ "" then
    let out := (stripQuotes (pyStrip ora.cvAnswerText.toList)).take maxLength
    if out ≠ [] then some (String.mk out) else none
  else none

/-! ## cv_reader.py — helpers -/

/-- First index at which `needle` occurs in `hay` (`str.index`). -/
def findSubIdx (needle : List Char) : List Char → Option Nat
  | [] => if needle.isPrefixOf [] then some 0 else none
  | c :: t =>
    if needle.isPrefixOf (c :: t) then some 0
    else (findSubIdx needle t).map (· + 1)

/-- `re.sub(r"\s*\?+\s*\*?\s*$", "", cs)`: remove a trailing run of
whitespace / an optional `*` / whitespace / one-or-more `?` / whitespace.
Greedy right-to-left maximal runs coincide with the regex's leftmost match
for this pattern. -/
def stripTrailQM (cs : List Char) : List Char :=
  let r := cs.reverse
  let r1 := r.dropWhile isPySpace
  let r2 := match r1 with
    | '*' :: t => t
    | _ => r1
  let r3 := r2.dropWhile isPySpace
  if r3.takeWhile (fun c => c = '?') = [] then cs
  else ((r3.dropWhile (fun c => c = '?')).dropWhile isPySpace).reverse

/-- `re.sub(r"\*+\s*$", "", cs)`: remove a trailing run of stars together
with the whitespace after it (no change when no star precedes the trailing
whitespace). -/
def stripTrailStars (cs : List Char) : List Char :=
  let r1 := cs.reverse.dropWhile isPySpace
  match r1 with
  | '*' :: _ => (r1.dropWhile (fun c => c = '*')).reverse
  | _ => cs

/-- Split on a single character (`str.split(sep)` for a one-char separator). -/
def splitOnChar (sep : Char) : List Char → List (List Char)
  | [] => [[]]
  | c :: t =>
    if c = sep then [] :: splitOnChar sep t
    else
      match splitOnChar sep t with
      | [] => [[c]]
      | p :: ps => (c :: p) :: ps

/-- `s.split(":", 1)[-1]`: everything after the first colon, or the whole
string when there is none. -/
def afterFirstColon (cs : List Char) : List Char :=
  match cs.dropWhile (fun c => c ≠ ':') with
  | ':' :: t => t
  | _ => cs

/-- The conjunction-separator keywords of the skill splitter, in the
alternation order of `re.split(r"\s+et/ou\s+|\s+and/or\s+|\s+and\s+|\s+or\s+|\s+et\s+|\s+ou\s+|,|/", ..., flags=re.I)`. -/
def sepKeywords : List String := ["et/ou", "and/or", "and", "or", "et", "ou"]

/-- Length of the separator matched at the head of `cs`, if any: a
whitespace-delimited keyword (case-insensitive, greedy whitespace), else a
single `,` or `/`. -/
def trySepAt (cs : List Char) : Option Nat :=
  let w := cs.takeWhile isPySpace
  let kwMatch : Option Nat :=
    if w.isEmpty then none
    else
      let afterW := cs.drop w.length
      (sepKeywords.find? (fun k =>
          k.toList.isPrefixOf (afterW.map pyLower) &&
          !((afterW.drop k.toList.length).takeWhile isPySpace).isEmpty)).map
        (fun k => w.length + k.toList.length +
          ((afterW.drop k.toList.length).takeWhile isPySpace).length)
  match kwMatch with
  | some n => some n
  | none =>
    match cs with
    | ',' :: _ => some 1
    | '/' :: _ => some 1
    | _ => none

/-- The splitter of `_extract_skill_phrases_from_question` (fuel-indexed;
fuel = list length always suffices because a separator consumes at least one
character). -/
def splitSkillsGo : Nat → List Char → List (List Char)
  | 0, cs => [cs]
  | fuel + 1, cs =>
    match cs with
    | [] => [[]]
    | c :: t =>
      match trySepAt (c :: t) with
      | some n => [] :: splitSkillsGo fuel ((c :: t).drop n)
      | none =>
        match splitSkillsGo fuel t with
        | [] => [[c]]
        | p :: ps => (c :: p) :: ps

def splitSkills (cs : List Char) : List (List Char) := splitSkillsGo cs.length cs

/-- `re.sub(r"^(des?|du|de la|les?|the|using|utilisant)\s+", "", p, flags=re.I)`:
candidates in the regex's backtracking order, each requiring at least one
whitespace character after it (consumed greedily). -/
def stripArticle (p : List Char) : List Char :=
  match ["des", "de", "du", "de la", "les", "le", "the", "using",
      "utilisant"].find? (fun a =>
        a.toList.isPrefixOf (p.map pyLower) &&
        !((p.drop a.toList.length).takeWhile isPySpace).isEmpty) with
  | some a => (p.drop a.toList.length).dropWhile isPySpace
  | none => p

/-- `str.strip(" .*")`. -/
def stripDotStarSpace (cs : List Char) : List Char :=
  let p := fun c => c = ' ' || c = '.' || c = '*'
  ((cs.dropWhile p).reverse.dropWhile p).reverse

/-- Order-preserving dedup skipping empties (the `seen` loop of
`_extract_skill_phrases_from_question`). -/
def dedupGo (seen : List (List Char)) : List (List Char) → List (List Char)
  | [] => []
  | p :: ps =>
    if p ≠ [] && !seen.contains p then p :: dedupGo (p :: seen) ps
    else dedupGo seen ps

/-- The character class `[a-zA-Z0-9+#./]` of the fallback `re.findall`. -/
def isWordCh (c : Char) : Bool :=
  c.isAlpha || c.isDigit || c = '+' || c = '#' || c = '.' || c = '/'

theorem length_dropWhile_le' (p : Char → Bool) (t : List Char) :
    (t.dropWhile p).length ≤ t.length := by
  induction t with
  | nil => simp
  | cons c cs ih =>
    simp only [List.dropWhile]
    split
    · exact Nat.le_succ_of_le ih
    · simp

/-- Maximal runs of characters satisfying `p` (`re.findall` on a character
class). -/
def runsOf (p : Char → Bool) : List Char → List (List Char)
  | [] => []
  | c :: t =>
    if p c then (c :: t.takeWhile p) :: runsOf p (t.dropWhile p)
    else runsOf p t
termination_by cs => cs.length
decreasing_by
  · simp only [List.length_cons]
    exact Nat.lt_succ_of_le (length_dropWhile_le' _ _)
  · simp

def skillStopWords : List (List Char) :=
  ["the", "and", "you", "have", "your", "avec", "experience", "expérience",
   "years", "années"].map String.toList

/-- `_extract_skill_phrases_from_question` of `cv_reader.py`.  Returns the
normalized (lowercased) phrases as character lists. -/
def _extract_skill_phrases_from_question (question_label : String) :
    List (List Char) :=
  if question_label = "" || pyStrip question_label.toList = [] then []
  else
    let text := pyStrip question_label.toList
    let ltext := text.map pyLower
    let restFromSep : Option (List Char) :=
      ([" with ", " avec ", " using ", " utilisant ", " in "].filterMap
        (fun sep =>
          match findSubIdx sep.toList ltext with
          | none => none
          | some i =>
            let r := pyStrip (stripTrailQM (pyStrip
                (text.drop (i + sep.toList.length))))
            if 2 < r.length && r.length < 150 then some r else none)).head?
    let rest := match restFromSep with
      | some r => r
      | none => pyStrip (stripTrailQM text)
    let rest :=
      if isSubstr " : ".toList rest || isSubstr ":".toList rest then
        let after_colon := pyStrip (rest.reverse.takeWhile (fun c => c ≠ ':')).reverse
        if 2 < after_colon.length && after_colon.length < 120 then after_colon
        else rest
      else rest
    let phrases := (splitSkills rest).filterMap (fun p =>
      let p1 := stripDotStarSpace (pyStrip (stripArticle (pyStrip p)))
      if 1 < p1.length && p1.length < 60 then some (p1.map pyLower) else none)
    let result := dedupGo [] phrases
    let result :=
      if result = [] && rest ≠ [] then
        (runsOf isWordCh rest).filterMap (fun w =>
          if w.length > 2 && !skillStopWords.contains (w.map pyLower) then
            some (w.map pyLower)
          else none)
      else result
    result.take 15

/-- `_skill_mentioned_in_cv` of `cv_reader.py`. -/
def _skill_mentioned_in_cv (question_label cv_text : String)
    (config_skills_list : String := "") : Bool :=
  let phrases := _extract_skill_phrases_from_question question_label
  if phrases = [] then true
  else
    let configHit :=
      if config_skills_list ≠ "" && pyStrip config_skills_list.toList ≠ [] then
        let list_parts := (splitOnChar ',' config_skills_list.toList).filterMap
          (fun p =>
            let q := pyStrip p
            if q ≠ [] then some (q.map pyLower) else none)
        phrases.any (fun ph =>
          list_parts.any (fun part => isSubstr part ph || isSubstr ph part))
      else false
    if configHit then true
    else if cv_text ≠ "" && pyStrip cv_text.toList ≠ [] then
      let cv_lower := cv_text.toList.map pyLower
      phrases.any (fun ph =>
        isSubstr ph cv_lower ||
        (ph.length > 3 &&
          isSubstr (ph.filter (fun c => c ≠ ' '))
            (cv_lower.filter (fun c => c ≠ ' '))))
    else false

/-- `_has_certification` of `cv_reader.py`. -/
def _has_certification (cert_name cv_text config_list : String) : Bool :=
  if cert_name = "" || pyStrip cert_name.toList = [] then false
  else
    let cert_clean := (pyStrip cert_name.toList).map pyLower
    let cert_key := cert_clean.takeWhile (fun c => !isPySpace c)
    let cv_lower := cv_text.toList.map pyLower
    if isSubstr cert_key cv_lower then true
    else if isSubstr "certif".toList cv_lower && isSubstr cert_key cv_lower then true
    else if isSubstr "certified".toList cv_lower && isSubstr cert_key cv_lower then true
    else if config_list ≠ "" then
      (splitOnChar ',' config_list.toList).any (fun part =>
        let p := (pyStrip part).map pyLower
        p ≠ [] && (isSubstr p cert_clean || isSubstr cert_key p))
    else false

/-- `_certification_question_and_name` of `cv_reader.py`. -/
def _certification_question_and_name (question_label : String) :
    Option (Bool × String) :=
  if question_label = "" then none
  else
    let label_lower := question_label.toList.map pyLower
    if !(["certificat", "certification", "permit", "permis", "licence"].any
        (fun k => isSubstr k.toList label_lower)) then none
    else
      let viaColon : Option (Bool × String) :=
        if isSubstr [':'] question_label.toList then
          let ac := pyStrip (stripTrailQM (pyStrip (afterFirstColon question_label.toList)))
          if ac ≠ [] && ac.length < 80 &&
              !(["avez", "do you", "have you"].any
                (fun p => p.toList.isPrefixOf (ac.map pyLower))) then
            some (true, String.mk ac)
          else none
        else none
      match viaColon with
      | some r => some r
      | none =>
        if isSubstr "certification".toList label_lower ||
            isSubstr "certificat".toList label_lower then
          some (true, String.mk (pyStrip question_label.toList))
        else none

/-! ## cv_reader.py — CV text cache (`load_cv_text`)

The PDF read is I/O: `PdfEnv` carries path existence, availability of the
pypdf library, and the extraction outcome (`none` = the `PdfReader` call
raised).  `load_cv_text` threads the module-global `_cv_text_cache`
explicitly: it takes the cache and returns (result, new cache). -/

structure PdfEnv where
  pathExists : String → Bool
  hasPypdf : Bool
  extractOk : String → Option String

def load_cv_text (env : PdfEnv) (cache : Option String) (cv_path : String) :
    String × Option String :=
  match cache with
  | some t => (t, some t)
  | none =>
    if cv_path = "" || !env.pathExists cv_path then ("", none)
    else if !env.hasPypdf then ("", none)
    else
      match env.extractOk cv_path with
      | some t => (t, some t)
      | none => ("", none)

/-! ## cv_reader.py — `get_answer_for_question`

The function is a chain of early returns; each numbered branch of the source
becomes a step function returning `none` when the branch falls through, and
the chain is first-`some`-wins (`orElseO`).  Arguments: `q` is the stripped
label (the Python walrus rebinding), `lab` its `.lower()`, `cvPath`/`cvText`
stand for `cv_path` and the text `load_cv_text(cv_path)` would produce. -/

def orElseO (a b : Option String) : Option String :=
  match a with
  | some x => some x
  | none => b

/-- Step 2: legal status in Canada. -/
def step2_legal_status (lab : List Char) : Option String :=
  if isSubstr "legal status".toList lab && isSubstr "canada".toList lab then
    some "No status"
  else none

/-- Step 3: location (city). -/
def step3_location (cfg : Config) (lab : List Char) : Option String :=
  if isSubstr "location".toList lab && isSubstr "city".toList lab then
    if cfg.DEFAULT_LOCATION_CITY ≠ "" then some (stripS cfg.DEFAULT_LOCATION_CITY)
    else none
  else none

/-- Step 3a: first name. -/
def step3a_first_name (cfg : Config) (lab : List Char) : Option String :=
  if (["first name", "prénom", "prenom", "given name"].any
        (fun k => isSubstr k.toList lab)) &&
      !isSubstr "last".toList lab && !isSubstr "nom de famille".toList lab then
    some (if cfg.EASY_APPLY_FIRST_NAME ≠ "" then stripS cfg.EASY_APPLY_FIRST_NAME
      else "N/A")
  else none

/-- Step 3a: last name. -/
def step3a_last_name (cfg : Config) (lab : List Char) : Option String :=
  if (["last name", "nom de famille", "family name", "surname"].any
        (fun k => isSubstr k.toList lab)) || pyStrip lab = "nom".toList then
    some (if cfg.EASY_APPLY_LAST_NAME ≠ "" then stripS cfg.EASY_APPLY_LAST_NAME
      else "N/A")
  else none

def hybrid_keywords : List String :=
  ["hybride", "hybrid", "remote", "télétravail", "telework", "work from home",
   "présence obligatoire", "on-site", "on site", "in-office",
   "work arrangement", "mode de travail", "work mode"]

/-- Step 3b: hybrid / remote / work mode. -/
def step3b_hybrid (cfg : Config) (lab : List Char) : Option String :=
  if hybrid_keywords.any (fun k => isSubstr k.toList lab) then
    let raw := pyStrip (if cfg.EASY_APPLY_HYBRID_ANSWER ≠ "" then
      cfg.EASY_APPLY_HYBRID_ANSWER else "Yes").toList
    if ["no", "non", "0", "false"].contains (String.mk (raw.map pyLower)) then
      some "No"
    else some "Yes"
  else none

/-- Step 4: salary expectations (the region/role only shape the prompt). -/
def step4_salary (ora : Oracle) (lab : List Char) : Option String :=
  if isSubstr "salary".toList lab &&
      (isSubstr "expectation".toList lab || isSubstr "expected".toList lab ||
        isSubstr "compensation".toList lab) then
    let salary := get_salary_expectation_gemini ora
    if salary ≠ "" then some salary else none
  else none

/-- Step 5: notice period. -/
def step5_notice (cfg : Config) (lab : List Char) : Option String :=
  if isSubstr "notice".toList lab &&
      (isSubstr "start".toList lab || isSubstr "before".toList lab ||
        isSubstr "joining".toList lab) then
    some (stripS (if cfg.NOTICE_PERIOD_DEFAULT ≠ "" then cfg.NOTICE_PERIOD_DEFAULT
      else "3 months"))
  else none

/-- Step 5b: current company. -/
def step5b_company (cfg : Config) (lab : List Char) : Option String :=
  if isSubstr "current company".toList lab ||
      (isSubstr "company".toList lab && isSubstr "current".toList lab) then
    some (stripS (if cfg.EASY_APPLY_CURRENT_COMPANY ≠ "" then
      cfg.EASY_APPLY_CURRENT_COMPANY else "N/A"))
  else none

/-- Step 5b: current title. -/
def step5b_title (cfg : Config) (lab : List Char) : Option String :=
  if isSubstr "current title".toList lab ||
      (isSubstr "title".toList lab && isSubstr "current".toList lab) then
    some (stripS (if cfg.EASY_APPLY_CURRENT_TITLE ≠ "" then
      cfg.EASY_APPLY_CURRENT_TITLE else "N/A"))
  else none

/-- Step 5c: pronouns. -/
def step5c_pronouns (lab : List Char) : Option String :=
  if isSubstr "pronouns".toList lab then some "Prefer not to say" else none

/-- Step 5c: gender / sex. -/
def step5c_gender (cfg : Config) (lab : List Char) : Option String :=
  if ["gender", "sexe", "sex ", "male", "female",
      "how do you describe your gender"].any (fun k => isSubstr k.toList lab) then
    some (if cfg.EASY_APPLY_GENDER ≠ "" then stripS cfg.EASY_APPLY_GENDER
      else "Male")
  else none

/-- Step 5d: certification / permit. -/
def step5d_certification (cfg : Config) (q cvPath cvText : String) :
    Option String :=
  match _certification_question_and_name q with
  | none => none
  | some (_, cert_name) =>
    let cv := if cvPath ≠ "" then cvText else ""
    if _has_certification cert_name cv cfg.EASY_APPLY_CERTIFICATIONS then
      some "Yes"
    else some "No"

/-- `str(int(years_default))` guarded by `try/except → "3"`. -/
def yearsIntFallback (yearsDefault : String) : String :=
  match pyIntOpt yearsDefault with
  | some n => toString n
  | none => "3"

def rating_keywords_6 : List String :=
  ["frontend", "backend", "microservice", "api", "database", "devops",
   "fullstack", "mobile", "cloud", "security", "testing"]

/-- Step 6: years-of-experience questions (whole number); falls through when
 a rating-style keyword is present, otherwise always answers. -/
def step6_years (cfg : Config) (ora : Oracle) (q : String) (lab : List Char)
    (cvPath cvText : String) (useGemini : Bool) (yearsDefault : String) :
    Option String :=
  if isSubstr "years".toList lab && isSubstr "experience".toList lab then
    if rating_keywords_6.any (fun k => isSubstr k.toList lab) then none
    else
      let cv := if cvPath ≠ "" then cvText else ""
      if isSubstr "how many".toList lab &&
          !_skill_mentioned_in_cv q cv cfg.EASY_APPLY_CERTIFICATIONS then
        some "0"
      else
        match get_years_for_question q with
        | some years => some (toString years)
        | none =>
          if useGemini && cv ≠ "" && (pyStrip cv.toList).length ≥ 50 then
            match get_years_of_experience_from_cv ora q cv with
            | some s => some s
            | none => some (yearsIntFallback yearsDefault)
          else some (yearsIntFallback yearsDefault)
  else none

/-- Step 7: Yes/No experience questions. -/
def step7_yes_no (cfg : Config) (q cvPath cvText : String) : Option String :=
  if is_yes_no_experience_question q then
    let cv := if cvPath ≠ "" then cvText else ""
    if !_skill_mentioned_in_cv q cv cfg.EASY_APPLY_CERTIFICATIONS then some "No"
    else
      match get_yes_no_for_experience q with
      | some s => some s
      | none => none
  else none

/-- Step 8: years via the map, else AI from CV. -/
def step8_years_map (ora : Oracle) (q cvPath cvText : String)
    (useGemini : Bool) : Option String :=
  match get_years_for_question q with
  | some years => some (toString years)
  | none =>
    if useGemini && cvPath ≠ "" then
      if (pyStrip cvText.toList).length ≥ 50 then
        match get_years_of_experience_from_cv ora q cvText with
        | some s => some s
        | none => none
      else none
    else none

def rating_keywords_8b : List String :=
  ["frontend", "backend", "microservice", "microservices", "api", "database",
   "devops", "fullstack", "full-stack", "mobile", "cloud", "security",
   "testing", "data"]

/-- Step 8b: rating/level decimals for short domain-keyword labels. -/
def step8b_rating (q : String) : Option String :=
  let label_clean := pyStrip ((stripTrailStars (pyStrip q.toList)).map pyLower)
  if label_clean ≠ [] && label_clean.length < 50 &&
      rating_keywords_8b.any (fun k => isSubstr k.toList label_clean) then
    if isSubstr "frontend".toList label_clean ||
        isSubstr "backend".toList label_clean then some "8.0"
    else some "5.0"
  else none

/-- Step 9: open-ended generative fallback (CV-grounded, then plain). -/
def step9_gemini (cfg : Config) (ora : Oracle) (q cvPath cvText : String)
    (useGemini : Bool) : Option String :=
  let cv := if cvPath ≠ "" then cvText else ""
  if useGemini then
    match (if cv ≠ "" && (pyStrip cv.toList).length ≥ 50 then
        get_answer_from_cv_with_gemini cfg ora q cv else none) with
    | some s => some s
    | none => get_answer_any_question_gemini ora q
  else none

/-- Ultimate fallback: keyword-sniffed safe defaults (always a value). -/
def final_fallback (q : String) (lab : List Char) (yearsDefault : String) :
    String :=
  if ["year", "experience", "how many"].any (fun w => isSubstr w.toList lab) then
    yearsIntFallback yearsDefault
  else if ["yes", "no", "experience with", "have you", "do you have"].any
      (fun w => isSubstr w.toList lab) then "Yes"
  else if isSubstr "number".toList lab || isSubstr "salary".toList lab ||
      isSubstr "amount".toList lab then "1"
  else if (pyStrip q.toList).length < 40 &&
      !(["describe", "explain", "why", "what", "comment"].any
        (fun w => isSubstr w.toList lab)) then "5.0"
  else "N/A"

/-- `get_answer_for_question` of `cv_reader.py`. -/
def get_answer_for_question (cfg : Config) (ora : Oracle)
    (question_label : String) (yearsDefault : String := "3")
    (cvPath : String := "") (cvText : String := "")
    (useGemini : Bool := true) : Option String :=
  let q := stripS question_label
  if q = "" then none
  else
    let lab := q.toList.map pyLower
    orElseO (get_work_authorization_answer cfg q) (
    orElseO (step2_legal_status lab) (
    orElseO (step3_location cfg lab) (
    orElseO (step3a_first_name cfg lab) (
    orElseO (step3a_last_name cfg lab) (
    orElseO (step3b_hybrid cfg lab) (
    orElseO (step4_salary ora lab) (
    orElseO (step5_notice cfg lab) (
    orElseO (step5b_company cfg lab) (
    orElseO (step5b_title cfg lab) (
    orElseO (step5c_pronouns lab) (
    orElseO (step5c_gender cfg lab) (
    orElseO (step5d_certification cfg q cvPath cvText) (
    orElseO (step6_years cfg ora q lab cvPath cvText useGemini yearsDefault) (
    orElseO (step7_yes_no cfg q cvPath cvText) (
    orElseO (step8_years_map ora q cvPath cvText useGemini) (
    orElseO (step8b_rating q) (
    orElseO (step9_gemini cfg ora q cvPath cvText useGemini)
      (some (final_fallback q lab yearsDefault)))))))))))))))))))

/-! ## applier.py — the text-value computation of `_fill_additional_questions`

Lines 277–348 of `applier.py`: given the label, the resolved answer (after
the `get_answer_any_question_gemini` retry), the control's tag, its
number-ness, and the computed maximum-length limit (attribute or helper
text, both read from the DOM and here passed in), compute the string written
into the control.  `float`/`int(float(...))` on strings already matched
against `^-?\d+(\.\d+)?$` are modelled exactly on the decimal literal
(binary-float rounding of huge literals is idealized). -/

def TEXT_FALLBACK : String := "none"

def ratingLabelsApplier : List String :=
  ["frontend", "backend", "microservice", "microservices", "api", "database",
   "devops", "fullstack", "mobile", "cloud", "security", "testing", "data"]

/-- `re.match(r"^-?\d+(\.\d+)?$", s)` as a Bool. -/
def matchNumRe (cs : List Char) : Bool :=
  let cs1 := match cs with
    | '-' :: t => t
    | t => t
  let ds := cs1.takeWhile Char.isDigit
  let rest := cs1.drop ds.length
  ds ≠ [] && (rest = [] ||
    (match rest with
     | '.' :: fr => fr ≠ [] && fr.all Char.isDigit
     | _ => false))

/-- `int(float(s))` for `s` matching the numeric pattern: truncation toward
zero, i.e. the signed integer part. -/
def truncDecimal (cs : List Char) : Int :=
  match cs with
  | '-' :: t => -(digitsToNat (t.takeWhile Char.isDigit) : Int)
  | t => (digitsToNat (t.takeWhile Char.isDigit) : Int)

/-- `float(s) < 0.1` for `s` matching the numeric pattern. -/
def ltPointOne (cs : List Char) : Bool :=
  match cs with
  | '-' :: _ => true
  | t =>
    let ip := t.takeWhile Char.isDigit
    if ip.any (fun c => c ≠ '0') then false
    else
      match t.drop ip.length with
      | '.' :: f1 :: _ => f1 = '0'
      | _ => true

def repeatList (l : List Char) : Nat → List Char
  | 0 => []
  | n + 1 => l ++ repeatList l n

def computeTextVal (label_str : String) (answer : Option String)
    (tag : String) (is_number : Bool) (max_len : Option Nat) : String :=
  let label_lower := label_str.toList.map pyLower
  let wants_decimal :=
    ratingLabelsApplier.any (fun k => isSubstr k.toList label_lower)
  let wants_whole_number :=
    (isSubstr "years".toList label_lower &&
      isSubstr "experience".toList label_lower) && !wants_decimal
  let answer2 : String :=
    if answer.isNone ||
        ((stripS (answer.getD "") = "" || stripS (answer.getD "") = "N/A") &&
          tag ≠ "input" && !is_number) then
      if wants_decimal then
        (if isSubstr "frontend".toList label_lower ||
            isSubstr "backend".toList label_lower then "8.0" else "5.0")
      else if is_number then (if wants_whole_number then "3" else "0")
      else TEXT_FALLBACK
    else answer.getD ""
  let text_val := stripS answer2
  let text_val := if text_val = "" && !is_number then TEXT_FALLBACK else text_val
  let text_val :=
    if wants_decimal && ["yes", "no", "oui", "non", "n/a", ""].contains
        (String.mk (text_val.toList.map pyLower)) then
      (if isSubstr "frontend".toList label_lower ||
          isSubstr "backend".toList label_lower then "8.0" else "5.0")
    else if wants_decimal && !matchNumRe text_val.toList then
      (if isSubstr "frontend".toList label_lower ||
          isSubstr "backend".toList label_lower then "8.0" else "5.0")
    else if wants_decimal && matchNumRe text_val.toList then
      (if ltPointOne text_val.toList then
        (if isSubstr "frontend".toList label_lower ||
            isSubstr "backend".toList label_lower then "8.0" else "5.0")
      else text_val)
    else text_val
  let text_val :=
    if wants_whole_number && matchNumRe text_val.toList then
      toString (truncDecimal text_val.toList)
    else text_val
  if tag = "textarea" || (tag = "input" && !is_number) then
    match max_len with
    | some m =>
      if m ≠ 0 && text_val.toList.length < m &&
          String.mk (text_val.toList.map pyLower) = TEXT_FALLBACK then
        String.mk ((repeatList (TEXT_FALLBACK ++ " ").toList
          (m / (TEXT_FALLBACK.toList.length + 1) + 1)).take m)
      else text_val
    | none => text_val
  else text_val

/-! ## main.py — the per-job loop and the daily-limit stop (lines 32–135)

The browser interactions are I/O: each job's interaction outcomes (selection,
the three daily-limit probes, Easy-Apply click, fill result, a raised
exception during fill) form a `JobEnv`; a round is the job list of one
iteration of the outer `while True`, and a run processes a finite trace of
rounds (the real loop would keep scrolling for more).  The shared `state`
dict is modelled as always supplied; `stop_event` is not modelled (absent /
never set). -/

structure RunState where
  running : Bool
  applied_count : Nat
  error : Option String
deriving Repr, DecidableEq

structure JobEnv where
  selectOk : Bool
  limitAfterSelect : Bool
  easyApplyOk : Bool
  limitAfterEasyApply : Bool
  fillRaises : Bool
  applied : Bool
  limitAfterFill : Bool
deriving Repr, DecidableEq

inductive JobStep where
  | limitStop
  | next (applied : Bool)
deriving Repr, DecidableEq

/-- One iteration of the `for i in range(count)` body (lines 74–106): the
sequence of early returns of the source, with `limitStop` standing for the
three `show_daily_limit_popup(); return 0` sites and `next` for falling
through to the next job (`applied` records whether `applied_total` was
incremented). -/
def stepJob (e : JobEnv) : JobStep :=
  if !e.selectOk then .next false
  else if e.limitAfterSelect then .limitStop
  else if !e.easyApplyOk then .next false
  else if e.limitAfterEasyApply then .limitStop
  else if e.fillRaises then .next false
  else if e.limitAfterFill then .limitStop
  else .next e.applied

/-- The inner for-loop: returns `(some n, n)` when a daily-limit return fires
with the applied count frozen at `n`, else `(none, final count)`. -/
def runJobs : List JobEnv → Nat → Option Nat × Nat
  | [], n => (none, n)
  | e :: rest, n =>
    match stepJob e with
    | .limitStop => (some n, n)
    | .next a => runJobs rest (if a then n + 1 else n)

/-- The outer `while True` over a finite trace of rounds. -/
def runRounds : List (List JobEnv) → Nat → Option Nat × Nat
  | [], n => (none, n)
  | r :: rs, n =>
    match runJobs r n with
    | (some m, _) => (some m, m)
    | (none, n') => runRounds rs n'

structure MainResult where
  exitCode : Option Int
  popupShown : Bool
  state : RunState
deriving Repr, DecidableEq

/-- `main` of `main.py`: state initialization (lines 38–41), navigation
check (line 50), the loop, and the `finally` clearing the running flag.
`exitCode = none` means the finite trace ran out (the real loop would keep
scrolling for more jobs). -/
def mainModel (navigateOk : Bool) (rounds : List (List JobEnv)) : MainResult :=
  if !navigateOk then
    { exitCode := some 1, popupShown := false,
      state := { running := false, applied_count := 0, error := none } }
  else
    match runRounds rounds 0 with
    | (some m, _) =>
      { exitCode := some 0, popupShown := true,
        state := { running := false, applied_count := m, error := none } }
    | (none, n) =>
      { exitCode := none, popupShown := false,
        state := { running := false, applied_count := n, error := none } }

/-- A job on which one of the three daily-limit probes fires. -/
def jobHitsLimit (e : JobEnv) : Bool :=
  e.selectOk && (e.limitAfterSelect ||
    (e.easyApplyOk && (e.limitAfterEasyApply ||
      (!e.fillRaises && e.limitAfterFill))))

/-- A job that increments the applied count. -/
def jobApplies (e : JobEnv) : Bool :=
  e.selectOk && !e.limitAfterSelect && e.easyApplyOk &&
    !e.limitAfterEasyApply && !e.fillRaises && !e.limitAfterFill && e.applied

/-- Applications completed before the first limit-hitting job of a round. -/
def appliedBeforeLimitJobs : List JobEnv → Nat
  | [] => 0
  | e :: rest =>
    if jobHitsLimit e then 0
    else (if jobApplies e then 1 else 0) + appliedBeforeLimitJobs rest

/-- Applications completed before the first limit detection of a run. -/
def appliedBeforeLimit : List (List JobEnv) → Nat
  | [] => 0
  | r :: rs =>
    if r.any jobHitsLimit then appliedBeforeLimitJobs r
    else (r.filter jobApplies).length + appliedBeforeLimit rs

/-! ## Supporting lemmas on the string primitives -/

theorem mem_suffixes_suffix : ∀ {l s : List Char}, s ∈ suffixes l → s <:+ l
  | [], s, h => by
    simp only [suffixes, List.mem_singleton] at h
    exact h ▸ List.suffix_refl []
  | c :: cs, s, h => by
    simp only [suffixes, List.mem_cons] at h
    rcases h with h | h
    · exact h ▸ List.suffix_refl _
    · exact (mem_suffixes_suffix h).trans (List.suffix_cons c cs)

theorem suffix_mem_suffixes : ∀ {l s : List Char}, s <:+ l → s ∈ suffixes l
  | [], s, h => by
    simp only [List.suffix_nil] at h
    simp [h, suffixes]
  | c :: cs, s, h => by
    rcases List.suffix_cons_iff.mp h with h | h
    · simp [h, suffixes]
    · simp only [suffixes, List.mem_cons]
      exact Or.inr (suffix_mem_suffixes h)

theorem mem_suffNoNL_suffix : ∀ {l s : List Char}, s ∈ suffNoNL l → s <:+ l
  | [], s, h => by
    simp only [suffNoNL, List.mem_singleton] at h
    exact h ▸ List.suffix_refl []
  | c :: cs, s, h => by
    simp only [suffNoNL, List.mem_cons] at h
    rcases h with h | h
    · exact h ▸ List.suffix_refl _
    · split at h
      · simp at h
      · exact (mem_suffNoNL_suffix h).trans (List.suffix_cons c cs)

theorem isSubstr_iff_infix {needle hay : List Char} :
    isSubstr needle hay = true ↔ needle <:+: hay := by
  constructor
  · intro h
    simp only [isSubstr, List.any_eq_true] at h
    obtain ⟨s, hs, hp⟩ := h
    exact (List.isPrefixOf_iff_prefix.mp hp).isInfix.trans
      (mem_suffixes_suffix hs).isInfix
  · intro h
    obtain ⟨u, v, huv⟩ := h
    simp only [isSubstr, List.any_eq_true]
    refine ⟨needle ++ v, suffix_mem_suffixes ?_, List.isPrefixOf_iff_prefix.mpr (List.prefix_append _ _)⟩
    exact ⟨u, by rw [← huv, List.append_assoc]⟩

/-- A `lit a ... anyStar ... lit b` search hit forces both literals to occur
in the text. -/
theorem rxSearch_lit_star_lit {a b : String} {cs : List Char}
    (h : rxSearch [Rx.lit a, Rx.anyStar, Rx.lit b] cs = true) :
    isSubstr a.toList cs = true ∧ isSubstr b.toList cs = true := by
  simp only [rxSearch, List.any_eq_true] at h
  obtain ⟨s, hs, hm⟩ := h
  have hssuf : s <:+ cs := mem_suffixes_suffix hs
  simp only [matchesFrom, Bool.and_eq_true] at hm
  obtain ⟨hpre, hrest⟩ := hm
  simp only [List.any_eq_true] at hrest
  obtain ⟨u, hu, hbu⟩ := hrest
  simp only [matchesFrom, Bool.and_eq_true] at hbu
  constructor
  · exact isSubstr_iff_infix.mpr
      ((List.isPrefixOf_iff_prefix.mp hpre).isInfix.trans hssuf.isInfix)
  · have h1 : u <:+ s.drop a.toList.length := mem_suffNoNL_suffix hu
    have h2 : s.drop a.toList.length <:+ s := List.drop_suffix _ _
    exact isSubstr_iff_infix.mpr
      ((List.isPrefixOf_iff_prefix.mp hbu.1).isInfix.trans
        ((h1.trans (h2.trans hssuf)).isInfix))

theorem toDigitsCore_ne_nil (b : Nat) :
    ∀ (fuel n : Nat) (ds : List Char), fuel ≠ 0 ∨ ds ≠ [] →
      Nat.toDigitsCore b fuel n ds ≠ []
  | 0, _, ds, h => by
    simp only [Nat.toDigitsCore]
    rcases h with h | h
    · exact absurd rfl h
    · exact h
  | fuel + 1, n, ds, _ => by
    simp only [Nat.toDigitsCore]
    split
    · exact List.cons_ne_nil _ _
    · exact toDigitsCore_ne_nil b fuel (n / b) _ (Or.inr (List.cons_ne_nil _ _))

theorem nat_toString_ne_empty (n : Nat) : toString n ≠ "" := by
  show Nat.repr n ≠ ""
  unfold Nat.repr
  intro h
  have h2 : Nat.toDigits 10 n = [] := by
    have := congrArg String.toList h
    simpa [List.asString, String.toList] using this
  exact toDigitsCore_ne_nil 10 (n + 1) n [] (Or.inl (Nat.succ_ne_zero n)) h2

theorem int_toString_ne_empty (n : Int) : toString n ≠ "" := by
  show Int.repr n ≠ ""
  cases n with
  | ofNat m => exact nat_toString_ne_empty m
  | negSucc m =>
    unfold Int.repr
    intro h
    have := congrArg String.toList h
    simp [String.toList] at this

/-- Every `some` the years table can produce is positive (4, 3, 3, or 2). -/
theorem get_years_for_question_pos (l : String) (y : Nat)
    (h : get_years_for_question l = some y) : 0 < y := by
  simp only [get_years_for_question] at h
  split at h
  · exact absurd h (by simp)
  · split at h
    · exact absurd h (by simp)
    · split at h
      · cases h; decide
      · split at h
        · cases h; decide
        · split at h
          · cases h; decide
          · split at h
            · cases h; decide
            · exact absurd h (by simp)

/-! ## The spec's quantity phrasing (for claim C3)

The spec speaks of labels "matching `how many ... years`"; `rxSearch` of this
pattern over the normalized label is that condition. -/

def howManyYearsPhrasing : List Rx := [.lit "how many", .anyStar, .lit "years"]

/-- C3: for every label matching the quantity phrasing "how many ... years"
on the normalized (lowercased, whitespace-collapsed) label,
`is_yes_no_experience_question` returns `false`, regardless of any other
phrasing present in the label. -/
theorem c3_quantity_phrasing_dominates (label : String)
    (h : rxSearch howManyYearsPhrasing (normalizeLabel label) = true) :
    is_yes_no_experience_question label = false := by
  by_cases hl : label = ""
  · simp [is_yes_no_experience_question, hl]
  · obtain ⟨h1, h2⟩ := rxSearch_lit_star_lit (a := "how many") (b := "years") h
    simp only [is_yes_no_experience_question, if_neg hl]
    rw [h1, h2]
    simp

/-- C3 witness: a label that matches the quantity phrasing and also matches
the Yes/No-experience patterns ("do you have ... experience") is still not
classified as Yes/No. -/
theorem c3_witness :
    rxSearch howManyYearsPhrasing
        (normalizeLabel "How many years? Do you have any experience with Java?") = true ∧
    rxSearch [Rx.lit "do you have ", Rx.anyStar, Rx.lit " experience"]
        (normalizeLabel "How many years? Do you have any experience with Java?") = true ∧
    is_yes_no_experience_question
        "How many years? Do you have any experience with Java?" = false :=
  ⟨by decide, by decide,
    c3_quantity_phrasing_dominates
      "How many years? Do you have any experience with Java?" (by decide)⟩

/-! ## C2: the resolver never returns `none` or `""` (amended) -/

theorem mk_ne_empty {l : List Char} (h : l ≠ []) : String.mk l ≠ "" := by
  intro hc
  apply h
  have h2 := congrArg String.data hc
  exact h2

/-- "The option, if `some`, holds a non-empty string." -/
def okOpt (o : Option String) : Prop := ∀ s, o = some s → s ≠ ""

theorem okOpt_none : okOpt none := by
  intro s hs
  exact absurd hs (by simp)

theorem okOpt_orElseO {a b : Option String} (ha : okOpt a) (hb : okOpt b) :
    okOpt (orElseO a b) := by
  intro s hs
  cases a with
  | none => exact hb s hs
  | some x =>
    simp only [orElseO] at hs
    exact ha s hs

theorem isSome_orElseO (a : Option String) {b : Option String}
    (hb : b.isSome = true) : (orElseO a b).isSome = true := by
  cases a <;> simp [orElseO, hb]

theorem yearsIntFallback_ne_empty (yd : String) : yearsIntFallback yd ≠ "" := by
  unfold yearsIntFallback
  split
  · exact int_toString_ne_empty _
  · decide

theorem gyfc_ne_empty {ora : Oracle} {q cv s : String}
    (h : get_years_of_experience_from_cv ora q cv = some s) : s ≠ "" := by
  simp only [get_years_of_experience_from_cv] at h
  split at h
  · simp at h
  · split at h
    · split at h
      · simp at h
      · injection h with hh
        subst hh
        exact nat_toString_ne_empty _
    · simp at h

theorem cvg_ne_empty {cfg : Config} {ora : Oracle} {q cv s : String}
    (h : get_answer_from_cv_with_gemini cfg ora q cv = some s) : s ≠ "" := by
  simp only [get_answer_from_cv_with_gemini] at h
  split at h
  · simp at h
  · split at h
    · simp at h
    · split at h
      · split at h
        · injection h with hh
          subst hh
          exact mk_ne_empty (by assumption)
        · simp at h
      · simp at h

theorem anyq_ne_empty {ora : Oracle} {q s : String}
    (h : get_answer_any_question_gemini ora q = some s) : s ≠ "" := by
  simp only [get_answer_any_question_gemini] at h
  split at h
  · simp at h
  · split at h
    · split at h
      · injection h with hh
        subst hh
        exact mk_ne_empty (by assumption)
      · simp at h
    · simp at h

theorem get_yes_no_ne_empty {q s : String}
    (h : get_yes_no_for_experience q = some s) : s ≠ "" := by
  simp only [get_yes_no_for_experience] at h
  split at h
  · simp at h
  · injection h with hh
    subst hh
    split <;> decide

/-- The hypothesis shape for the optional profile values: either unset, or
not blank after stripping. -/
def cfgValueOk (v : String) : Prop := v = "" ∨ stripS v ≠ ""

theorem okOpt_work_auth {cfg : Config} (q : String)
    (hauth : cfg.WORK_AUTHORIZATION_ANSWER ≠ "")
    (hspon : cfg.WORK_NEED_SPONSORSHIP_ANSWER ≠ "") :
    okOpt (get_work_authorization_answer cfg q) := by
  intro s hs
  simp only [get_work_authorization_answer] at hs
  repeat' split at hs
  all_goals
    first
    | exact Option.noConfusion hs
    | (injection hs with hh; subst hh; assumption)

theorem okOpt_step2 (lab : List Char) : okOpt (step2_legal_status lab) := by
  intro s hs
  simp only [step2_legal_status] at hs
  split at hs
  · injection hs with hh
    subst hh
    decide
  · simp at hs

theorem okOpt_step3 {cfg : Config} (lab : List Char)
    (hcity : cfgValueOk cfg.DEFAULT_LOCATION_CITY) :
    okOpt (step3_location cfg lab) := by
  intro s hs
  simp only [step3_location] at hs
  split at hs
  · split at hs
    · injection hs with hh
      subst hh
      rcases hcity with h | h
      · rename_i hcond
        exact absurd h hcond
      · exact h
    · simp at hs
  · simp at hs

theorem okOpt_step3a_first {cfg : Config} (lab : List Char)
    (hfn : cfgValueOk cfg.EASY_APPLY_FIRST_NAME) :
    okOpt (step3a_first_name cfg lab) := by
  intro s hs
  simp only [step3a_first_name] at hs
  split at hs
  · injection hs with hh
    subst hh
    split
    · rcases hfn with h | h
      · rename_i hcond
        exact absurd h hcond
      · exact h
    · decide
  · simp at hs

theorem okOpt_step3a_last {cfg : Config} (lab : List Char)
    (hln : cfgValueOk cfg.EASY_APPLY_LAST_NAME) :
    okOpt (step3a_last_name cfg lab) := by
  intro s hs
  simp only [step3a_last_name] at hs
  split at hs
  · injection hs with hh
    subst hh
    split
    · rcases hln with h | h
      · rename_i hcond
        exact absurd h hcond
      · exact h
    · decide
  · simp at hs

theorem okOpt_step3b {cfg : Config} (lab : List Char) :
    okOpt (step3b_hybrid cfg lab) := by
  intro s hs
  simp only [step3b_hybrid] at hs
  repeat' split at hs
  all_goals
    first
    | exact Option.noConfusion hs
    | (injection hs with hh; subst hh; decide)

theorem okOpt_step4 {ora : Oracle} (lab : List Char) :
    okOpt (step4_salary ora lab) := by
  intro s hs
  simp only [step4_salary] at hs
  split at hs
  · split at hs
    · injection hs with hh
      subst hh
      assumption
    · simp at hs
  · simp at hs

theorem okOpt_step5 {cfg : Config} (lab : List Char)
    (hnp : cfgValueOk cfg.NOTICE_PERIOD_DEFAULT) :
    okOpt (step5_notice cfg lab) := by
  intro s hs
  simp only [step5_notice] at hs
  split at hs
  · injection hs with hh
    subst hh
    split
    · rcases hnp with h | h
      · rename_i hcond
        exact absurd h hcond
      · exact h
    · decide
  · simp at hs

theorem okOpt_step5b_company {cfg : Config} (lab : List Char)
    (hc : cfgValueOk cfg.EASY_APPLY_CURRENT_COMPANY) :
    okOpt (step5b_company cfg lab) := by
  intro s hs
  simp only [step5b_company] at hs
  split at hs
  · injection hs with hh
    subst hh
    split
    · rcases hc with h | h
      · rename_i hcond
        exact absurd h hcond
      · exact h
    · decide
  · simp at hs

theorem okOpt_step5b_title {cfg : Config} (lab : List Char)
    (hc : cfgValueOk cfg.EASY_APPLY_CURRENT_TITLE) :
    okOpt (step5b_title cfg lab) := by
  intro s hs
  simp only [step5b_title] at hs
  split at hs
  · injection hs with hh
    subst hh
    split
    · rcases hc with h | h
      · rename_i hcond
        exact absurd h hcond
      · exact h
    · decide
  · simp at hs

theorem okOpt_step5c_pronouns (lab : List Char) :
    okOpt (step5c_pronouns lab) := by
  intro s hs
  simp only [step5c_pronouns] at hs
  split at hs
  · injection hs with hh
    subst hh
    decide
  · simp at hs

theorem okOpt_step5c_gender {cfg : Config} (lab : List Char)
    (hg : cfgValueOk cfg.EASY_APPLY_GENDER) :
    okOpt (step5c_gender cfg lab) := by
  intro s hs
  simp only [step5c_gender] at hs
  split at hs
  · injection hs with hh
    subst hh
    split
    · rcases hg with h | h
      · rename_i hcond
        exact absurd h hcond
      · exact h
    · decide
  · simp at hs

theorem okOpt_step5d {cfg : Config} (q cvPath cvText : String) :
    okOpt (step5d_certification cfg q cvPath cvText) := by
  intro s hs
  simp only [step5d_certification] at hs
  repeat' split at hs
  all_goals
    first
    | exact Option.noConfusion hs
    | (injection hs with hh; subst hh; decide)

theorem okOpt_step6 {cfg : Config} {ora : Oracle}
    (q : String) (lab : List Char) (cvPath cvText : String) (ug : Bool)
    (yd : String) :
    okOpt (step6_years cfg ora q lab cvPath cvText ug yd) := by
  intro s hs
  simp only [step6_years] at hs
  repeat' split at hs
  all_goals
    first
    | exact Option.noConfusion hs
    | (injection hs with hh; subst hh; decide)
    | (injection hs with hh; subst hh; exact nat_toString_ne_empty _)
    | (injection hs with hh; subst hh; exact yearsIntFallback_ne_empty yd)
    | (injection hs with hh; subst hh; exact gyfc_ne_empty (by assumption))

theorem okOpt_step7 {cfg : Config} (q cvPath cvText : String) :
    okOpt (step7_yes_no cfg q cvPath cvText) := by
  intro s hs
  simp only [step7_yes_no] at hs
  repeat' split at hs
  all_goals
    first
    | exact Option.noConfusion hs
    | (injection hs with hh; subst hh; decide)
    | (injection hs with hh; subst hh; exact get_yes_no_ne_empty (by assumption))

theorem okOpt_step8 {ora : Oracle} (q cvPath cvText : String) (ug : Bool) :
    okOpt (step8_years_map ora q cvPath cvText ug) := by
  intro s hs
  simp only [step8_years_map] at hs
  repeat' split at hs
  all_goals
    first
    | exact Option.noConfusion hs
    | (injection hs with hh; subst hh; exact nat_toString_ne_empty _)
    | (injection hs with hh; subst hh; exact gyfc_ne_empty (by assumption))

theorem okOpt_step8b (q : String) : okOpt (step8b_rating q) := by
  intro s hs
  simp only [step8b_rating] at hs
  repeat' split at hs
  all_goals
    first
    | exact Option.noConfusion hs
    | (injection hs with hh; subst hh; decide)

theorem okOpt_step9 {cfg : Config} {ora : Oracle}
    (q cvPath cvText : String) (ug : Bool) :
    okOpt (step9_gemini cfg ora q cvPath cvText ug) := by
  intro s hs
  simp only [step9_gemini] at hs
  repeat' split at hs
  all_goals
    first
    | exact Option.noConfusion hs
    | exact anyq_ne_empty hs
    | (injection hs with hh; subst hh; rename_i heq;
       rw [ite_eq_iff] at heq;
       exact heq.elim (fun hh2 => cvg_ne_empty hh2.2)
         (fun hh2 => Option.noConfusion hh2.2))

theorem final_fallback_ne_empty (q : String) (lab : List Char) (yd : String) :
    final_fallback q lab yd ≠ "" := by
  simp only [final_fallback]
  repeat' split
  all_goals first
    | exact yearsIntFallback_ne_empty yd
    | decide

/-- C2 counterexample: the claim as stated fails for a configuration with an
empty value.  With `WORK_AUTHORIZATION_ANSWER = ""` (an empty config value,
which the claim explicitly includes) the non-empty label "Citizenship"
resolves to the empty string. -/
theorem c2_counterexample :
    stripS "Citizenship" ≠ "" ∧
    get_answer_for_question
      { cfgDefault with WORK_AUTHORIZATION_ANSWER := "" } oraNone
      "Citizenship" = some "" := by
  exact ⟨by decide, by decide⟩

/-- C2 (amended): for every label that is non-empty after stripping and every
oracle, the resolver never raises (it is total by construction), never
returns `none`, and never returns the empty string — provided the configured
authorization and sponsorship answers are non-empty and the optional profile
values (city, names, notice period, company, title, gender) are either unset
or non-blank after stripping.  Without those provisos the claim fails
(`c2_counterexample`). -/
theorem c2_never_empty (cfg : Config) (ora : Oracle)
    (label yearsDefault cvPath cvText : String) (useGemini : Bool)
    (hq : stripS label ≠ "")
    (hauth : cfg.WORK_AUTHORIZATION_ANSWER ≠ "")
    (hspon : cfg.WORK_NEED_SPONSORSHIP_ANSWER ≠ "")
    (hcity : cfgValueOk cfg.DEFAULT_LOCATION_CITY)
    (hfn : cfgValueOk cfg.EASY_APPLY_FIRST_NAME)
    (hln : cfgValueOk cfg.EASY_APPLY_LAST_NAME)
    (hnp : cfgValueOk cfg.NOTICE_PERIOD_DEFAULT)
    (hcomp : cfgValueOk cfg.EASY_APPLY_CURRENT_COMPANY)
    (htitle : cfgValueOk cfg.EASY_APPLY_CURRENT_TITLE)
    (hg : cfgValueOk cfg.EASY_APPLY_GENDER) :
    ∃ a, get_answer_for_question cfg ora label yearsDefault cvPath cvText
        useGemini = some a ∧ a ≠ "" := by
  simp only [get_answer_for_question]
  rw [if_neg hq]
  have main : ∀ (o : Option String), okOpt o → o.isSome = true →
      ∃ a, o = some a ∧ a ≠ "" := by
    intro o hok hsome
    obtain ⟨a, ha⟩ := Option.isSome_iff_exists.mp hsome
    exact ⟨a, ha, hok a ha⟩
  apply main
  · refine okOpt_orElseO (okOpt_work_auth _ hauth hspon) ?_
    refine okOpt_orElseO (okOpt_step2 _) ?_
    refine okOpt_orElseO (okOpt_step3 _ hcity) ?_
    refine okOpt_orElseO (okOpt_step3a_first _ hfn) ?_
    refine okOpt_orElseO (okOpt_step3a_last _ hln) ?_
    refine okOpt_orElseO (okOpt_step3b _) ?_
    refine okOpt_orElseO (okOpt_step4 _) ?_
    refine okOpt_orElseO (okOpt_step5 _ hnp) ?_
    refine okOpt_orElseO (okOpt_step5b_company _ hcomp) ?_
    refine okOpt_orElseO (okOpt_step5b_title _ htitle) ?_
    refine okOpt_orElseO (okOpt_step5c_pronouns _) ?_
    refine okOpt_orElseO (okOpt_step5c_gender _ hg) ?_
    refine okOpt_orElseO (okOpt_step5d _ _ _) ?_
    refine okOpt_orElseO (okOpt_step6 _ _ _ _ _ _) ?_
    refine okOpt_orElseO (okOpt_step7 _ _ _) ?_
    refine okOpt_orElseO (okOpt_step8 _ _ _ _) ?_
    refine okOpt_orElseO (okOpt_step8b _) ?_
    refine okOpt_orElseO (okOpt_step9 _ _ _ _) ?_
    intro s hs
    injection hs with hh
    subst hh
    exact final_fallback_ne_empty _ _ _
  · repeat' apply isSome_orElseO
    rfl

/-- C2 witness: a fully default configuration, a failing oracle and an
unclassifiable label still produce a non-empty answer. -/
theorem c2_witness :
    ∃ a, get_answer_for_question cfgDefault oraNone
        "Anything else we should know?" "3" "" "" false = some a ∧ a ≠ "" :=
  c2_never_empty cfgDefault oraNone "Anything else we should know?" "3" "" ""
    false (by decide) (by decide) (by decide) (Or.inr (by decide))
    (Or.inl rfl) (Or.inl rfl) (Or.inr (by decide)) (Or.inl rfl) (Or.inl rfl)
    (Or.inl rfl)

/-! ## C1: the work-authorization override -/

theorem orElseO_some (x : String) (b : Option String) :
    orElseO (some x) b = some x := rfl

theorem orElseO_none (b : Option String) : orElseO none b = b := rfl

/-- C1 counterexample: a label matching an authorization pattern
("authorized to work") that also matches a sponsorship phrasing resolves to
the needs-sponsorship answer "Yes", not the configured not-authorized answer
"No" — so "authorization phrasings always yield the not-authorized value" is
false as stated. -/
theorem c1_counterexample :
    WORK_AUTH_PATTERNS.any (fun p => rxSearch p (normalizeLabel
      (stripS "Do you require sponsorship to be authorized to work in Canada?"))) = true ∧
    cfgDefault.WORK_AUTHORIZATION_ANSWER = "No" ∧
    get_answer_for_question cfgDefault oraNone
      "Do you require sponsorship to be authorized to work in Canada?" =
      some "Yes" ∧
    some "Yes" ≠ some cfgDefault.WORK_AUTHORIZATION_ANSWER := by
  refine ⟨by decide, rfl, by decide, by decide⟩

/-- C1 (amended): the work-authorization/sponsorship override is consulted
before any other rule and its result is independent of the CV text, the
oracle completions, the years default and the generative toggle.  A label
matching a sponsorship phrasing always resolves to the configured
needs-sponsorship value; a label matching the authorization classifier and
none of the sponsorship checks (which are tested first) always resolves to
the configured not-authorized value. -/
theorem c1_work_authorization_override (cfg : Config) (ora : Oracle)
    (label yearsDefault cvPath cvText : String) (useGemini : Bool) :
    (SPONSORSHIP_QUESTION_PATTERNS.any
        (fun p => rxSearch p (normalizeLabel (stripS label))) = true →
      get_answer_for_question cfg ora label yearsDefault cvPath cvText useGemini =
        some cfg.WORK_NEED_SPONSORSHIP_ANSWER) ∧
    (sponsorshipDetected (normalizeLabel (stripS label)) = false →
      is_work_authorization_question cfg (stripS label) = true →
      get_answer_for_question cfg ora label yearsDefault cvPath cvText useGemini =
        some cfg.WORK_AUTHORIZATION_ANSWER) := by
  constructor
  · intro hA
    have hq : stripS label ≠ "" := by
      intro h
      rw [h] at hA
      exact absurd hA (by decide)
    have hwa : get_work_authorization_answer cfg (stripS label) =
        some cfg.WORK_NEED_SPONSORSHIP_ANSWER := by
      simp only [get_work_authorization_answer]
      rw [if_neg hq]
      simp only [hA]
      simp
    simp only [get_answer_for_question]
    rw [if_neg hq, hwa, orElseO_some]
  · intro hS hW
    have hq : stripS label ≠ "" := by
      intro h
      rw [h] at hW
      simp [is_work_authorization_question] at hW
    simp only [sponsorshipDetected, Bool.or_eq_false_iff] at hS
    obtain ⟨⟨⟨hS1, hS2⟩, hS3⟩, hS4⟩ := hS
    have hwa : get_work_authorization_answer cfg (stripS label) =
        some cfg.WORK_AUTHORIZATION_ANSWER := by
      simp only [get_work_authorization_answer]
      rw [if_neg hq]
      simp only [hS1, hS2, hS3, hS4, hW]
      simp
    simp only [get_answer_for_question]
    rw [if_neg hq, hwa, orElseO_some]

/-- C1 witness: a sponsorship phrasing resolves to "Yes" whatever the CV and
oracle; a label matching both an authorization pattern and a generic
"do you have" Yes/No-experience pattern resolves to the authorization
answer "No". -/
theorem c1_witness :
    get_answer_for_question cfgDefault oraNone
      "Do you require sponsorship for employment visa?" =
      some cfgDefault.WORK_NEED_SPONSORSHIP_ANSWER ∧
    is_yes_no_experience_question
      (stripS "Do you have experience working in Canada and are you authorized to work in Canada?") = true ∧
    get_answer_for_question cfgDefault oraNone
      "Do you have experience working in Canada and are you authorized to work in Canada?" =
      some cfgDefault.WORK_AUTHORIZATION_ANSWER :=
  ⟨(c1_work_authorization_override cfgDefault oraNone
      "Do you require sponsorship for employment visa?" "3" "" "" true).1
      (by decide),
    by decide,
    (c1_work_authorization_override cfgDefault oraNone
      "Do you have experience working in Canada and are you authorized to work in Canada?"
      "3" "" "" true).2 (by decide) (by decide)⟩

/-! ## C5: absent skills answer "0" / "No" -/

/-- C5: when none of the skill phrases extracted from the label occur in the
CV text or the configured credential list (`_skill_mentioned_in_cv` is
false), and the label reaches the experience steps (none of the earlier
fixed-field classifiers fires), a "how many ... years" label resolves to
"0" and a Yes/No experience label resolves to "No" — in both cases for every
oracle, so neither the knowledge table nor the generative fallback can
influence the answer. -/
theorem c5_absent_skill (cfg : Config) (ora : Oracle)
    (label yearsDefault cvPath cvText : String) (useGemini : Bool)
    (hq : stripS label ≠ "")
    (hw : get_work_authorization_answer cfg (stripS label) = none)
    (h2 : step2_legal_status ((stripS label).toList.map pyLower) = none)
    (h3 : step3_location cfg ((stripS label).toList.map pyLower) = none)
    (h3a : step3a_first_name cfg ((stripS label).toList.map pyLower) = none)
    (h3b : step3a_last_name cfg ((stripS label).toList.map pyLower) = none)
    (h3c : step3b_hybrid cfg ((stripS label).toList.map pyLower) = none)
    (h4 : step4_salary ora ((stripS label).toList.map pyLower) = none)
    (h5 : step5_notice cfg ((stripS label).toList.map pyLower) = none)
    (h5b : step5b_company cfg ((stripS label).toList.map pyLower) = none)
    (h5c : step5b_title cfg ((stripS label).toList.map pyLower) = none)
    (h5d : step5c_pronouns ((stripS label).toList.map pyLower) = none)
    (h5e : step5c_gender cfg ((stripS label).toList.map pyLower) = none)
    (h5f : step5d_certification cfg (stripS label) cvPath cvText = none)
    (hsk : _skill_mentioned_in_cv (stripS label)
      (if cvPath ≠ "" then cvText else "") cfg.EASY_APPLY_CERTIFICATIONS = false) :
    (isSubstr "years".toList ((stripS label).toList.map pyLower) = true →
      isSubstr "experience".toList ((stripS label).toList.map pyLower) = true →
      rating_keywords_6.any
        (fun k => isSubstr k.toList ((stripS label).toList.map pyLower)) = false →
      isSubstr "how many".toList ((stripS label).toList.map pyLower) = true →
      get_answer_for_question cfg ora label yearsDefault cvPath cvText useGemini =
        some "0") ∧
    ((isSubstr "years".toList ((stripS label).toList.map pyLower) &&
        isSubstr "experience".toList ((stripS label).toList.map pyLower)) = false →
      is_yes_no_experience_question (stripS label) = true →
      get_answer_for_question cfg ora label yearsDefault cvPath cvText useGemini =
        some "No") := by
  constructor
  · intro hye hex hnr hhm
    have h6 : step6_years cfg ora (stripS label)
        ((stripS label).toList.map pyLower) cvPath cvText useGemini yearsDefault =
        some "0" := by
      simp only [step6_years, hye, hex, hnr, hhm, hsk]
      simp
    simp only [get_answer_for_question]
    rw [if_neg hq, hw, orElseO_none, h2, orElseO_none, h3, orElseO_none,
      h3a, orElseO_none, h3b, orElseO_none, h3c, orElseO_none, h4, orElseO_none,
      h5, orElseO_none, h5b, orElseO_none, h5c, orElseO_none, h5d, orElseO_none,
      h5e, orElseO_none, h5f, orElseO_none, h6, orElseO_some]
  · intro hny hyn
    have h6 : step6_years cfg ora (stripS label)
        ((stripS label).toList.map pyLower) cvPath cvText useGemini yearsDefault =
        none := by
      simp only [step6_years]
      rw [hny]
      simp
    have h7 : step7_yes_no cfg (stripS label) cvPath cvText = some "No" := by
      simp only [step7_yes_no, hyn, hsk]
      simp
    simp only [get_answer_for_question]
    rw [if_neg hq, hw, orElseO_none, h2, orElseO_none, h3, orElseO_none,
      h3a, orElseO_none, h3b, orElseO_none, h3c, orElseO_none, h4, orElseO_none,
      h5, orElseO_none, h5b, orElseO_none, h5c, orElseO_none, h5d, orElseO_none,
      h5e, orElseO_none, h5f, orElseO_none, h6, orElseO_none, h7, orElseO_some]

/-- C5 witness: "How many years of experience with Kubernetes?" resolves to
"0" and "Do you have experience with Kubernetes?" to "No" against a CV that
never mentions kubernetes, with the oracle completions arbitrary (here: the
all-failing oracle) and no credential list. -/
theorem c5_witness :
    get_answer_for_question cfgDefault oraNone
      "How many years of experience with Kubernetes?" "3" "/cv.pdf"
      "Experienced JAVA developer. Spring Boot, Docker, PostgreSQL, React. Worked at Acme for 4 years."
      true = some "0" ∧
    get_answer_for_question cfgDefault oraNone
      "Do you have experience with Kubernetes?" "3" "/cv.pdf"
      "Experienced JAVA developer. Spring Boot, Docker, PostgreSQL, React. Worked at Acme for 4 years."
      true = some "No" :=
  ⟨(c5_absent_skill cfgDefault oraNone
      "How many years of experience with Kubernetes?" "3" "/cv.pdf"
      "Experienced JAVA developer. Spring Boot, Docker, PostgreSQL, React. Worked at Acme for 4 years."
      true (by decide) (by decide) (by decide) (by decide) (by decide)
      (by decide) (by decide) (by decide) (by decide) (by decide) (by decide)
      (by decide) (by decide) (by decide) (by decide)).1
      (by decide) (by decide) (by decide) (by decide),
    (c5_absent_skill cfgDefault oraNone
      "Do you have experience with Kubernetes?" "3" "/cv.pdf"
      "Experienced JAVA developer. Spring Boot, Docker, PostgreSQL, React. Worked at Acme for 4 years."
      true (by decide) (by decide) (by decide) (by decide) (by decide)
      (by decide) (by decide) (by decide) (by decide) (by decide) (by decide)
      (by decide) (by decide) (by decide) (by decide)).2
      (by decide) (by decide)⟩

/-! ## C9: the CV text cache is idempotent -/

/-- C9: once a first call of `load_cv_text` succeeds in extracting text (the
cache becomes populated), every later call returns the identical cached
string — for any path argument and even for a changed extraction
environment (`env2`), i.e. the PDF is not re-read. -/
theorem c9_cv_text_cache (env env2 : PdfEnv) (p1 p2 t : String)
    (h : (load_cv_text env none p1).snd = some t) :
    (load_cv_text env none p1).fst = t ∧
    load_cv_text env2 (some t) p2 = (t, some t) := by
  refine ⟨?_, rfl⟩
  simp only [load_cv_text] at h ⊢
  cases hp : (decide (p1 = "") || !env.pathExists p1)
  · simp only [hp] at h ⊢
    cases hh : env.hasPypdf
    · simp only [hh] at h
      simp at h
    · simp only [hh] at h ⊢
      cases hex : env.extractOk p1
      · simp only [hex] at h
        simp at h
      · simp only [hex] at h ⊢
        simp at h
        simp [h]
  · simp only [hp] at h
    simp at h

/-- C9 witness: a successful first read caches; the second call (different
path, different environment) returns the same text. -/
theorem c9_witness :
    (load_cv_text
        { pathExists := fun _ => true, hasPypdf := true,
          extractOk := fun _ => some "CV TEXT" } none "/cv.pdf").fst = "CV TEXT" ∧
    load_cv_text
        { pathExists := fun _ => false, hasPypdf := false,
          extractOk := fun _ => none } (some "CV TEXT") "/other.pdf" =
      ("CV TEXT", some "CV TEXT") :=
  c9_cv_text_cache
    { pathExists := fun _ => true, hasPypdf := true,
      extractOk := fun _ => some "CV TEXT" }
    { pathExists := fun _ => false, hasPypdf := false, extractOk := fun _ => none }
    "/cv.pdf" "/other.pdf" "CV TEXT" rfl

/-! ## C7: the repeated "none" filler hits the length limit exactly -/

/-- C7: a required empty textarea or text input (the resolver produced no
answer, so the "none" fallback is used) whose label carries no rating
keyword and whose maximum-length constraint is 50 is filled with the
repeated fallback text truncated to exactly 50 characters. -/
theorem c7_fallback_filled_to_maxlen (label tag : String)
    (hnr : ratingLabelsApplier.any
      (fun k => isSubstr k.toList (label.toList.map pyLower)) = false)
    (htag : tag = "textarea" ∨ tag = "input") :
    (computeTextVal label none tag false (some 50)).toList.length = 50 := by
  rcases htag with h | h <;> subst h <;>
    cases hwe : (isSubstr "years".toList (label.toList.map pyLower) &&
        isSubstr "experience".toList (label.toList.map pyLower)) <;>
      (simp only [computeTextVal, hnr, hwe]; simp; decide)

/-- C7 witness: a concrete required textarea with max length 50. -/
theorem c7_witness :
    (computeTextVal "Additional comments *" none "textarea" false
      (some 50)).toList.length = 50 :=
  c7_fallback_filled_to_maxlen "Additional comments *" "textarea" (by decide)
    (Or.inl rfl)

/-! ## C8: the daily limit is a clean stop -/

theorem stepJob_limitStop_iff (e : JobEnv) :
    stepJob e = JobStep.limitStop ↔ jobHitsLimit e = true := by
  rcases e with ⟨s, l1, ea, l2, fr, ap, l3⟩
  cases s <;> cases l1 <;> cases ea <;> cases l2 <;> cases fr <;> cases ap <;>
    cases l3 <;> decide

theorem stepJob_of_no_limit {e : JobEnv} (h : jobHitsLimit e = false) :
    stepJob e = JobStep.next (jobApplies e) := by
  rcases e with ⟨s, l1, ea, l2, fr, ap, l3⟩
  revert h
  cases s <;> cases l1 <;> cases ea <;> cases l2 <;> cases fr <;> cases ap <;>
    cases l3 <;> decide

theorem runJobs_limit : ∀ (jobs : List JobEnv) (n : Nat),
    jobs.any jobHitsLimit = true →
    runJobs jobs n =
      (some (n + appliedBeforeLimitJobs jobs), n + appliedBeforeLimitJobs jobs)
  | [], n, h => by simp at h
  | e :: rest, n, h => by
    cases hl : jobHitsLimit e with
    | true =>
      have hstep : stepJob e = JobStep.limitStop := (stepJob_limitStop_iff e).mpr hl
      simp only [runJobs, hstep, appliedBeforeLimitJobs, hl, if_pos]
      simp
    | false =>
      have hrest : rest.any jobHitsLimit = true := by
        simp only [List.any_cons, hl, Bool.false_or] at h
        exact h
      have hstep := stepJob_of_no_limit hl
      simp only [runJobs, hstep]
      rw [runJobs_limit rest _ hrest]
      simp only [appliedBeforeLimitJobs, hl]
      simp only [Bool.false_eq_true, if_false]
      cases ha : jobApplies e <;> simp <;> try omega

theorem runJobs_no_limit : ∀ (jobs : List JobEnv) (n : Nat),
    jobs.any jobHitsLimit = false →
    runJobs jobs n = (none, n + (jobs.filter jobApplies).length)
  | [], n, _ => by simp [runJobs]
  | e :: rest, n, h => by
    have hl : jobHitsLimit e = false := by
      simp only [List.any_cons, Bool.or_eq_false_iff] at h
      exact h.1
    have hrest : rest.any jobHitsLimit = false := by
      simp only [List.any_cons, Bool.or_eq_false_iff] at h
      exact h.2
    have hstep := stepJob_of_no_limit hl
    simp only [runJobs, hstep]
    rw [runJobs_no_limit rest _ hrest]
    cases ha : jobApplies e <;> simp [List.filter_cons, ha] <;> try omega

theorem runRounds_limit : ∀ (rounds : List (List JobEnv)) (n : Nat),
    rounds.any (fun r => r.any jobHitsLimit) = true →
    runRounds rounds n =
      (some (n + appliedBeforeLimit rounds), n + appliedBeforeLimit rounds)
  | [], n, h => by simp at h
  | r :: rs, n, h => by
    cases hr : r.any jobHitsLimit with
    | true =>
      simp only [runRounds, runJobs_limit r n hr, appliedBeforeLimit, hr, if_pos]
    | false =>
      have hrs : rs.any (fun r => r.any jobHitsLimit) = true := by
        simp only [List.any_cons, hr, Bool.false_or] at h
        exact h
      simp only [runRounds, runJobs_no_limit r n hr]
      rw [runRounds_limit rs _ hrs]
      simp only [appliedBeforeLimit, hr]
      simp only [Bool.false_eq_true, if_false]
      rw [Nat.add_assoc]

/-- C8: whenever a daily-limit probe fires during the per-job loop, the run
terminates with exit code 0, the popup is shown, the shared state's error
field is never set, the running flag is cleared, and the applied count is
frozen at the number of applications completed before the detection. -/
theorem c8_daily_limit_clean_stop (rounds : List (List JobEnv))
    (h : rounds.any (fun r => r.any jobHitsLimit) = true) :
    mainModel true rounds =
      { exitCode := some 0, popupShown := true,
        state := { running := false,
                   applied_count := appliedBeforeLimit rounds,
                   error := none } } := by
  simp only [mainModel, runRounds_limit rounds 0 h]
  simp

/-- C8 witness: one round in which the second job trips the limit after the
first job applied; the run reports success with count frozen at 1. -/
theorem c8_witness :
    mainModel true
      [[{ selectOk := true, limitAfterSelect := false, easyApplyOk := true,
          limitAfterEasyApply := false, fillRaises := false, applied := true,
          limitAfterFill := false },
        { selectOk := true, limitAfterSelect := true, easyApplyOk := false,
          limitAfterEasyApply := false, fillRaises := false, applied := false,
          limitAfterFill := false }]] =
      { exitCode := some 0, popupShown := true,
        state := { running := false, applied_count := 1, error := none } } := by
  have h := c8_daily_limit_clean_stop
    [[{ selectOk := true, limitAfterSelect := false, easyApplyOk := true,
        limitAfterEasyApply := false, fillRaises := false, applied := true,
        limitAfterFill := false },
      { selectOk := true, limitAfterSelect := true, easyApplyOk := false,
        limitAfterEasyApply := false, fillRaises := false, applied := false,
        limitAfterFill := false }]] (by decide)
  rw [h]
  decide

/-! ## C6: option-picking stays inside the option list -/

/-- C6 counterexample: the claim as stated fails.  A non-empty option list
whose entries are blank after stripping yields `none` (the claim allows
`none` only for an empty list), and a non-blank option is returned in
stripped form, which need not be an element of the supplied list. -/
theorem c6_counterexample :
    ([" "] ≠ ([] : List String)) ∧
    get_answer_from_options oraNone "q" [" "] = none ∧
    get_answer_from_options oraNone "q" [" Yes "] = some "Yes" ∧
    "Yes" ∉ [" Yes "] := by
  refine ⟨by decide, ?_, ?_, by decide⟩ <;> rfl

/-- C6 (amended): for every option list that is non-empty after stripping
entries and discarding blank ones, `get_answer_from_options` returns an
element of that stripped list (the literal first stripped option when the
completion is absent or fuzzy-matches nothing); `none` arises only when the
stripped list is empty. -/
theorem c6_options_membership (ora : Oracle) (question : String)
    (options : List String)
    (h : (options.map (fun o => String.mk (pyStrip o.toList))).filter
        (fun o => o ≠ "") ≠ []) :
    ∃ o ∈ (options.map (fun o => String.mk (pyStrip o.toList))).filter
        (fun o => o ≠ ""),
      get_answer_from_options ora question options = some o := by
  unfold get_answer_from_options
  cases hm : (options.map (fun o => String.mk (pyStrip o.toList))).filter
      (fun o => o ≠ "") with
  | nil => exact absurd hm h
  | cons o0 rest =>
    by_cases ht : ora.optionsText = ""
    · exact ⟨o0, List.mem_cons_self o0 rest, by simp [ht]⟩
    · cases hf : (o0 :: rest).find? (fun o =>
          (o.toList.map pyLower) == ((stripQuotes (pyStrip ora.optionsText.toList)).map pyLower) ||
          isSubstr ((stripQuotes (pyStrip ora.optionsText.toList)).map pyLower) (o.toList.map pyLower) ||
          isSubstr (o.toList.map pyLower) ((stripQuotes (pyStrip ora.optionsText.toList)).map pyLower)) with
      | some o =>
        exact ⟨o, List.mem_of_find?_eq_some hf, by simp only [String.toList] at hf; simp [ht, hf]⟩
      | none =>
        exact ⟨o0, List.mem_cons_self o0 rest, by simp only [String.toList] at hf; simp [ht, hf]⟩

/-- C6 witness: a concrete dropdown pick stays within the stripped list. -/
theorem c6_witness :
    ∃ o ∈ (["Yes", "No"].map (fun o => String.mk (pyStrip o.toList))).filter
        (fun o => o ≠ ""),
      get_answer_from_options
        { oraNone with optionsText := "no" } "Hybrid work?" ["Yes", "No"] = some o :=
  c6_options_membership { oraNone with optionsText := "no" } "Hybrid work?"
    ["Yes", "No"] (by decide)

/-! ## C4: the three-tier years table -/

/-- The gate of `get_years_for_question`: the normalized label mentions one of
the year/experience keywords. -/
def yearGate (label : String) : Bool :=
  ["year", "years", "année", "expérience", "experience"].any
    (fun k => isSubstr k.toList (normalizeLabel label))

/-- The "total years of experience" phrasing checked first by
`get_years_for_question`. -/
def totalPhrase (label : String) : Bool :=
  isSubstr "total".toList (normalizeLabel label) &&
    (isSubstr "year".toList (normalizeLabel label) ||
      isSubstr "experience".toList (normalizeLabel label))

theorem yearGate_empty_false : yearGate "" = false := by decide

/-- C4: `get_years_for_question` implements the three-tier table by substring
containment on the normalized label, tiers in fixed priority order: the
"total years" phrasing returns the fixed default 3 independent of technology;
otherwise a primary-skill token (java/core java/java se/jvm) returns 4; next
a mid-tier token returns 3; any other label mentioning "year"/"experience"
returns 2. -/
theorem c4_three_tier_table (label : String) :
    (yearGate label = true → totalPhrase label = true →
      get_years_for_question label = some TOTAL_YEARS_DEFAULT) ∧
    (yearGate label = true → totalPhrase label = false →
      TECH_4_YEARS.any (fun t => isSubstr t.toList (normalizeLabel label)) = true →
      get_years_for_question label = some YEARS_JAVA_CORE) ∧
    (yearGate label = true → totalPhrase label = false →
      TECH_4_YEARS.any (fun t => isSubstr t.toList (normalizeLabel label)) = false →
      TECH_3_YEARS.any (fun t => isSubstr t.toList (normalizeLabel label)) = true →
      get_years_for_question label = some YEARS_PRIMARY) ∧
    (yearGate label = true → totalPhrase label = false →
      TECH_4_YEARS.any (fun t => isSubstr t.toList (normalizeLabel label)) = false →
      TECH_3_YEARS.any (fun t => isSubstr t.toList (normalizeLabel label)) = false →
      (isSubstr "year".toList (normalizeLabel label) ||
        isSubstr "experience".toList (normalizeLabel label)) = true →
      get_years_for_question label = some YEARS_OTHER) := by
  have hl : yearGate label = true → label ≠ "" := by
    intro hg hl
    rw [hl, yearGate_empty_false] at hg
    exact Bool.false_ne_true hg
  refine ⟨fun hg ht => ?_, fun hg ht h4 => ?_, fun hg ht h4 h3 => ?_,
    fun hg ht h4 h3 hy => ?_⟩
  · have hne := hl hg
    simp only [yearGate] at hg
    simp only [totalPhrase] at ht
    simp only [get_years_for_question]
    rw [if_neg hne]
    simp only [hg, ht]
    simp
  · have hne := hl hg
    simp only [yearGate] at hg
    simp only [totalPhrase] at ht
    simp only [get_years_for_question]
    rw [if_neg hne]
    simp only [hg, ht, h4]
    simp
  · have hne := hl hg
    simp only [yearGate] at hg
    simp only [totalPhrase] at ht
    simp only [get_years_for_question]
    rw [if_neg hne]
    simp only [hg, ht, h4, h3]
    simp
  · have hne := hl hg
    simp only [yearGate] at hg
    simp only [totalPhrase] at ht
    have htot : isSubstr "total".toList (normalizeLabel label) = false := by
      cases htt : isSubstr "total".toList (normalizeLabel label)
      · rfl
      · rw [htt, hy] at ht
        exact absurd ht (by decide)
    simp only [get_years_for_question]
    rw [if_neg hne]
    simp only [hg, h4, h3, htot, hy]
    simp

/-- C4 witness: one concrete label per tier. -/
theorem c4_witness :
    get_years_for_question "How many total years of experience with Java?" =
      some TOTAL_YEARS_DEFAULT ∧
    get_years_for_question "How many years of experience with Java?" =
      some YEARS_JAVA_CORE ∧
    get_years_for_question "How many years of experience with Docker?" =
      some YEARS_PRIMARY ∧
    get_years_for_question "How many years of experience with Kubernetes?" =
      some YEARS_OTHER :=
  ⟨(c4_three_tier_table "How many total years of experience with Java?").1
      (by decide) (by decide),
    (c4_three_tier_table "How many years of experience with Java?").2.1
      (by decide) (by decide) (by decide),
    (c4_three_tier_table "How many years of experience with Docker?").2.2.1
      (by decide) (by decide) (by decide) (by decide),
    (c4_three_tier_table "How many years of experience with Kubernetes?").2.2.2
      (by decide) (by decide) (by decide) (by decide) (by decide)⟩

/-! ## C10: the Yes/No experience resolver can never answer "No" -/

/-- C10: for every label, `get_yes_no_for_experience` returns `none` or
`"Yes"`; it can never return `"No"`, because every tier of the years table
and the fallback tier are positive. -/
theorem c10_never_no (label : String) :
    get_yes_no_for_experience label = none ∨
      get_yes_no_for_experience label = some "Yes" := by
  by_cases h : is_yes_no_experience_question label
  · right
    simp only [get_yes_no_for_experience, h, Bool.not_true, Bool.false_eq_true,
      if_false]
    have hpos : 0 < (get_years_for_question label).getD YEARS_OTHER := by
      cases hy : get_years_for_question label with
      | none => decide
      | some y => simpa [hy] using get_years_for_question_pos label y hy
    simp [hpos]
  · left
    simp [get_yes_no_for_experience, h]

end EasyApply
